import Mathlib

/-
Verification of the vibe-coded-apps-database ETL core.

Shallow embedding of the repository's SQLite-backed ingestion pipeline:
tables are lists of row structures, the SQLite AUTOINCREMENT counter is an
explicit `nextId` field, and `CURRENT_TIMESTAMP` / `datetime.now()` is passed
in as an explicit `now : Nat` argument.  HTTP scraping loops are embedded as
functions over a finite transcript of page responses, one transcript entry
per request issued.
-/

namespace VibeDB

/-- One row of the `applications` table (the columns read or written by
`tools/process_data.py` and `tools/cleanup_platform_duplicates.py`). -/
structure AppRow where
  id : Nat
  platform_id : Nat
  external_id : String
  name : String
  url : String
  description : String
  updated_at : Nat
  deriving Repr, DecidableEq

/-- The `applications` table: its rows plus the AUTOINCREMENT id counter. -/
structure AppsDB where
  rows : List AppRow
  nextId : Nat
  deriving Repr, DecidableEq

/-- The empty `applications` table (SQLite rowids start at 1). -/
def emptyAppsDB : AppsDB := { rows := [], nextId := 1 }

/-- The `app_data` dict assembled by the processors in `process_data.py`
before calling `_insert_or_update_application`. -/
structure AppData where
  platform_id : Nat
  external_id : String
  name : String
  url : String
  description : String
  deriving Repr, DecidableEq

/-- The WHERE clause `platform_id = ? AND external_id = ?` used by the
duplicate check in `_insert_or_update_application`. -/
def appKeyMatch (p : Nat) (e : String) (r : AppRow) : Bool :=
  r.platform_id == p && r.external_id == e

namespace GitHubDataProcessor

/-- `GitHubDataProcessor._insert_or_update_application`
(`tools/process_data.py` lines 206-235): SELECT a row by
`(platform_id, external_id)`; if found, UPDATE its `name`, `url`,
`description` and `updated_at` and return its id; otherwise INSERT a new row
and return the fresh rowid. -/
def insert_or_update_application (db : AppsDB) (a : AppData) (now : Nat) :
    Nat × AppsDB :=
  match db.rows.find? (appKeyMatch a.platform_id a.external_id) with
  | some r =>
      (r.id,
        { db with
          rows := db.rows.map fun q =>
            if q.id == r.id then
              { q with name := a.name, url := a.url,
                       description := a.description, updated_at := now }
            else q })
  | none =>
      (db.nextId,
        { rows := db.rows ++
            [{ id := db.nextId, platform_id := a.platform_id,
               external_id := a.external_id, name := a.name, url := a.url,
               description := a.description, updated_at := now }],
          nextId := db.nextId + 1 })

/-- One item of a GitHub code-search result file, restricted to the fields
`process_github_search_results` reads when building `app_data`.
`repo_id` is `item['repository']['id']`; a missing id makes the item skipped. -/
structure GHSearchItem where
  repo_id : Option Nat
  full_name : String
  html_url : String
  description : String
  deriving Repr, DecidableEq

/-- The `app_data` dict built for one search item (`process_data.py`
lines 109-115). -/
def itemAppData (platform_id : Nat) (it : GHSearchItem) : AppData :=
  { platform_id := platform_id,
    external_id := toString (it.repo_id.getD 0),
    name := it.full_name,
    url := it.html_url,
    description := it.description }

/-- The per-item loop of `process_github_search_results` restricted to its
effect on the `applications` table: items whose `repo_id` is missing (or 0,
which is falsy in Python) are skipped, every other item is upserted.  The
loop's writes to `github_repositories`, `repository_files` and
`application_ai_tools` touch other tables and leave `applications` unchanged. -/
def process_github_search_results (db : AppsDB) (platform_id : Nat)
    (items : List GHSearchItem) (now : Nat) : AppsDB :=
  items.foldl
    (fun s it =>
      if it.repo_id.getD 0 == 0 then s
      else (insert_or_update_application s (itemAppData platform_id it) now).2)
    db

end GitHubDataProcessor

namespace V0DataProcessor

/-- `V0DataProcessor._insert_or_update_application` (`tools/process_data.py`
lines 361-388); its body is verbatim identical to the GitHubDataProcessor
method of the same name. -/
def insert_or_update_application (db : AppsDB) (a : AppData) (now : Nat) :
    Nat × AppsDB :=
  match db.rows.find? (appKeyMatch a.platform_id a.external_id) with
  | some r =>
      (r.id,
        { db with
          rows := db.rows.map fun q =>
            if q.id == r.id then
              { q with name := a.name, url := a.url,
                       description := a.description, updated_at := now }
            else q })
  | none =>
      (db.nextId,
        { rows := db.rows ++
            [{ id := db.nextId, platform_id := a.platform_id,
               external_id := a.external_id, name := a.name, url := a.url,
               description := a.description, updated_at := now }],
          nextId := db.nextId + 1 })

end V0DataProcessor

namespace DataIntegrator

/-- One row of the `apps` table created by `tools/data_integration.py`
(`setup_database`): `url TEXT UNIQUE` and `UNIQUE(url, source_platform)`. -/
structure IntAppRow where
  id : Nat
  name : String
  description : String
  url : String
  source_platform : String
  created_at : Nat
  updated_at : Nat
  stars : Nat
  language : String
  license : String
  topics : String
  raw_data : String
  deriving Repr, DecidableEq

/-- The `apps` table: rows plus the AUTOINCREMENT id counter. -/
structure IntDB where
  apps : List IntAppRow
  nextId : Nat
  deriving Repr, DecidableEq

/-- The empty `apps` table. -/
def emptyIntDB : IntDB := { apps := [], nextId := 1 }

/-- The `app_data` dict passed to `DataIntegrator.insert_app`.  Keys the
caller may omit are `Option`; `insert_app` applies the same `.get` defaults
as the source.  JSON `null` values are conflated with missing keys, which
changes nothing observable for the claims under verification. -/
structure IntAppData where
  name : Option String
  description : Option String
  url : Option String
  source_platform : Option String
  created_at : Option Nat
  stars : Option Nat
  language : Option String
  license : Option String
  topics : Option String
  raw_data : String
  deriving Repr, DecidableEq

/-- `DataIntegrator.insert_app` (`tools/data_integration.py` lines 140-183):
if `app_data['url']` is truthy and a row with that url exists, count a
duplicate and return `None`; otherwise `INSERT OR IGNORE` — the
`url TEXT UNIQUE` constraint turns an insert whose url (after the `''`
default) collides with an existing row into a no-op whose `lastrowid` is
falsy, also counted as a duplicate.  Returns (`app_id`-or-`None`, new table). -/
def insert_app (db : IntDB) (a : IntAppData) (now : Nat) : Option Nat × IntDB :=
  let u := a.url.getD ""
  if u != "" && db.apps.any (fun r => r.url == u) then
    (none, db)
  else if db.apps.any (fun r => r.url == u) then
    (none, db)
  else
    (some db.nextId,
      { apps := db.apps ++
          [{ id := db.nextId, name := a.name.getD "",
             description := a.description.getD "", url := u,
             source_platform := a.source_platform.getD "",
             created_at := a.created_at.getD now, updated_at := now,
             stars := a.stars.getD 0, language := a.language.getD "",
             license := a.license.getD "", topics := a.topics.getD "[]",
             raw_data := a.raw_data }],
        nextId := db.nextId + 1 })

/-- One source's ingestion loop in `data_integration.py`
(`process_bolt_projects` etc.): build `app_data` per record and call
`insert_app` on each. -/
def ingest (db : IntDB) (recs : List IntAppData) (now : Nat) : IntDB :=
  recs.foldl (fun s a => (insert_app s a now).2) db

/-- One row of the `platforms` table of `data_integration.py`
(`name TEXT UNIQUE`, `id INTEGER PRIMARY KEY AUTOINCREMENT`). -/
structure PlatRow where
  id : Nat
  name : String
  description : String
  base_url : String
  scraping_method : String
  last_scraped : Nat
  deriving Repr, DecidableEq

/-- The `platforms` table: rows plus the AUTOINCREMENT id counter
(AUTOINCREMENT never reuses a rowid, so the counter only grows). -/
structure PlatDB where
  rows : List PlatRow
  nextId : Nat
  deriving Repr, DecidableEq

/-- The empty `platforms` table. -/
def emptyPlatDB : PlatDB := { rows := [], nextId := 1 }

/-- `DataIntegrator.insert_platform` (`tools/data_integration.py` lines
130-138): `INSERT OR REPLACE INTO platforms` keyed by the UNIQUE `name` —
SQLite deletes any row with the same name and inserts a fresh row whose id
is newly assigned (the id column is not supplied), then `cursor.lastrowid`
is returned. -/
def insert_platform (db : PlatDB) (name description base_url method : String)
    (now : Nat) : Nat × PlatDB :=
  (db.nextId,
    { rows := db.rows.filter (fun r => !(r.name == name)) ++
        [{ id := db.nextId, name := name, description := description,
           base_url := base_url, scraping_method := method,
           last_scraped := now }],
      nextId := db.nextId + 1 })

end DataIntegrator

/-- One row of the `platforms` table of `vibe_coded_apps.db` as touched by
`tools/cleanup_platform_duplicates.py` (id, name, url are the columns it
reads; only id decides the DELETE). -/
structure PlatformRow where
  id : Nat
  name : String
  url : String
  deriving Repr, DecidableEq

/-- The portion of `vibe_coded_apps.db` the cleanup script operates on. -/
structure CleanupState where
  applications : List AppRow
  platforms : List PlatformRow
  deriving Repr, DecidableEq

/-- The body of the per-pair loop in `cleanup_platform_duplicates`
(`tools/cleanup_platform_duplicates.py` lines 61-89): re-point every
application owned by `merge_id` to `keep_id` (refreshing `updated_at`),
then DELETE the `merge_id` platform row. -/
def mergePair (s : CleanupState) (keep_id merge_id : Nat) (now : Nat) :
    CleanupState :=
  { applications := s.applications.map fun a =>
      if a.platform_id == merge_id then
        { a with platform_id := keep_id, updated_at := now }
      else a,
    platforms := s.platforms.filter fun p => !(p.id == merge_id) }

/-- Outcome of the pair loop running inside the single transaction:
either all pairs were applied, or an exception escaped at some pair. -/
inductive MergeRun where
  | ok (s : CleanupState)
  | err
  deriving Repr, DecidableEq

/-- The pair loop of `cleanup_platform_duplicates`: pairs are processed in
order; `failAt = some k` models an exception raised while merging the k-th
remaining pair, which propagates out of the loop. -/
def mergeLoop (s : CleanupState) (pairs : List (Nat × Nat))
    (failAt : Option Nat) (now : Nat) : MergeRun :=
  match pairs, failAt with
  | [], _ => .ok s
  | _ :: _, some 0 => .err
  | p :: ps, some (k + 1) => mergeLoop (mergePair s p.1 p.2 now) ps (some k) now
  | p :: ps, none => mergeLoop (mergePair s p.1 p.2 now) ps none now

/-- `cleanup_platform_duplicates` (`tools/cleanup_platform_duplicates.py`
lines 55-104): `BEGIN TRANSACTION`, run the whole pair loop, `COMMIT`; on
any exception `ROLLBACK` (restoring the initial state) and re-raise.  The
boolean reports whether the run committed. -/
def cleanup_platform_duplicates (s0 : CleanupState) (pairs : List (Nat × Nat))
    (failAt : Option Nat) (now : Nat) : CleanupState × Bool :=
  match mergeLoop s0 pairs failAt now with
  | .ok s => (s, true)
  | .err => (s0, false)

/-- Number of applications owned by platform `pid`. -/
def countOwned (s : CleanupState) (pid : Nat) : Nat :=
  s.applications.countP fun a => a.platform_id == pid

/-- The ids present in the `platforms` table. -/
def platIds (s : CleanupState) : List Nat :=
  s.platforms.map PlatformRow.id

/-- Referential integrity: every application references an existing platform. -/
def RefOK (s : CleanupState) : Prop :=
  ∀ a ∈ s.applications, a.platform_id ∈ platIds s

/-- Modelled from the spec (section 4.5 / claim C4's sentences), for
comparison with `cleanup_platform_duplicates`: one transaction per pair, so
an error while merging the k-th pair rolls back only that pair's changes and
the remaining pairs are still processed. -/
def cleanupPerPairSpec (s0 : CleanupState) (pairs : List (Nat × Nat))
    (failAt : Option Nat) (now : Nat) : CleanupState :=
  (pairs.enum.foldl
    (fun s pi =>
      if failAt == some pi.1 then s else mergePair s pi.2.1 pi.2.2 now)
    s0)

namespace LovableScraper

/-- One raw Lovable community project record, restricted to the keys
`LovableScraper.process_project` reads; a key the record lacks is `none`. -/
structure RawProject where
  id : Option String
  workspace_id : Option String
  name : Option String
  title : Option String
  description : Option String
  created_at : Option String
  updated_at : Option String
  created_by : Option String
  user_id : Option String
  user_display_name : Option String
  user_photo_url : Option String
  url : Option String
  latest_screenshot_url : Option String
  status : Option String
  is_published : Option Bool
  visibility : Option String
  featured : Option Bool
  featured_at : Option String
  feature_source : Option String
  feature_rank : Option Nat
  edit_count : Option Nat
  user_message_count : Option Nat
  remix_count : Option Nat
  deriving Repr, DecidableEq

/-- A raw record carrying none of the keys the normalizer reads. -/
def emptyRawProject : RawProject :=
  { id := none, workspace_id := none, name := none, title := none,
    description := none, created_at := none, updated_at := none,
    created_by := none, user_id := none, user_display_name := none,
    user_photo_url := none, url := none, latest_screenshot_url := none,
    status := none, is_published := none, visibility := none,
    featured := none, featured_at := none, feature_source := none,
    feature_rank := none, edit_count := none, user_message_count := none,
    remix_count := none }

/-- The dict returned by `LovableScraper.process_project`
(`working-scrapers/lovable_scraper.py` lines 151-187). -/
structure ProcessedProject where
  id : Option String
  workspace_id : Option String
  title : String
  description : String
  created_at : Option String
  updated_at : Option String
  created_by : String
  user_id : Option String
  user_display_name : String
  user_photo_url : String
  url : String
  latest_screenshot_url : String
  status : String
  is_published : Bool
  visibility : String
  featured : Bool
  featured_at : Option String
  feature_source : String
  feature_rank : Option Nat
  edit_count : Nat
  user_message_count : Nat
  remix_count : Nat
  source : String
  platform : String
  ai_tool : String
  deriving Repr, DecidableEq

/-- `LovableScraper.process_project`: a single dict-literal return whose
every field is a `project.get(...)` with the source's default; it returns an
output record for every input record. -/
def process_project (p : RawProject) : ProcessedProject :=
  { id := p.id,
    workspace_id := p.workspace_id,
    title := p.name.getD (p.title.getD ""),
    description := p.description.getD "",
    created_at := p.created_at,
    updated_at := p.updated_at,
    created_by := p.created_by.getD "",
    user_id := p.user_id,
    user_display_name := p.user_display_name.getD "",
    user_photo_url := p.user_photo_url.getD "",
    url := p.url.getD "",
    latest_screenshot_url := p.latest_screenshot_url.getD "",
    status := p.status.getD "",
    is_published := p.is_published.getD false,
    visibility := p.visibility.getD "",
    featured := p.featured.getD false,
    featured_at := p.featured_at,
    feature_source := p.feature_source.getD "",
    feature_rank := p.feature_rank,
    edit_count := p.edit_count.getD 0,
    user_message_count := p.user_message_count.getD 0,
    remix_count := p.remix_count.getD 0,
    source := "lovable_community",
    platform := "Lovable",
    ai_tool := "GPT-4" }

/-- The normalization pass in `main` (`lovable_scraper.py` line 240):
`[scraper.process_project(project) for project in raw_projects]` —
a plain map, so no record is ever dropped. -/
def process_projects (raws : List RawProject) : List ProcessedProject :=
  raws.map process_project

end LovableScraper

namespace BoltSupabaseScraper

/-- One raw Bolt gallery project record, restricted to the keys
`BoltSupabaseScraper.process_project` reads. -/
structure RawProject where
  id : Option String
  title : Option String
  description : Option String
  start_date : Option String
  author : Option String
  author_email : Option String
  author_social : Option String
  slug : Option String
  published : Option Bool
  status : Option String
  project_url : Option String
  project_preview : Option String
  thumbnail_image : Option String
  category_slugs : Option (List String)
  categories : Option (List String)
  deriving Repr, DecidableEq

/-- A raw record carrying none of the keys the normalizer reads. -/
def emptyRawProject : RawProject :=
  { id := none, title := none, description := none, start_date := none,
    author := none, author_email := none, author_social := none,
    slug := none, published := none, status := none, project_url := none,
    project_preview := none, thumbnail_image := none,
    category_slugs := none, categories := none }

/-- The dict returned by `BoltSupabaseScraper.process_project`
(`scrapers/bolt_supabase_scraper.py` lines 141-170). -/
structure ProcessedProject where
  id : Option String
  title : String
  description : String
  start_date : Option String
  author : String
  author_email : String
  author_social : String
  slug : String
  published : Bool
  status : String
  project_url : String
  project_preview : String
  thumbnail_image : String
  category_slugs : List String
  categories : List String
  source : String
  platform : String
  ai_tool : String
  deriving Repr, DecidableEq

/-- `BoltSupabaseScraper.process_project`: a single dict-literal return of
`project.get(...)` calls with the source's defaults; it returns an output
record for every input record. -/
def process_project (p : RawProject) : ProcessedProject :=
  { id := p.id,
    title := p.title.getD "",
    description := p.description.getD "",
    start_date := p.start_date,
    author := p.author.getD "",
    author_email := p.author_email.getD "",
    author_social := p.author_social.getD "",
    slug := p.slug.getD "",
    published := p.published.getD false,
    status := p.status.getD "",
    project_url := p.project_url.getD "",
    project_preview := p.project_preview.getD "",
    thumbnail_image := p.thumbnail_image.getD "",
    category_slugs := p.category_slugs.getD [],
    categories := p.categories.getD [],
    source := "bolt_gallery",
    platform := "Bolt",
    ai_tool := "Claude" }

/-- The normalization pass in `main` (`bolt_supabase_scraper.py` line 223):
a plain list comprehension over the raw projects — no record is dropped. -/
def process_projects (raws : List RawProject) : List ProcessedProject :=
  raws.map process_project

end BoltSupabaseScraper

/-- One HTTP response observed by a pagination loop, one transcript entry
per request issued: a rate-limit status (403/429), any other non-200 status
or transport failure, or a 200 page carrying its items. -/
inductive PageResp (α : Type) where
  | rate
  | fail
  | ok (items : List α)
  deriving Repr, DecidableEq

/-- Why a pagination loop stopped (`exhausted` means the finite transcript
ran out while the loop was still going to issue another request). -/
inductive ExitReason where
  | pageShort
  | emptyPage
  | noMoreFlag
  | ceiling
  | maxReached
  | errorAbort
  | exhausted
  deriving Repr, DecidableEq

namespace GitHubCodeSearch

/-- The `while True` page loop of `search_code_files`
(`todo-scrapers/github_enhanced_search.py` lines 53-105), one transcript
entry per `requests.get`.  A 403 logs, sleeps 60s and `continue`s without
advancing the page; any other non-200 (or an exception) breaks; an empty
item list breaks; otherwise the page is appended, the `max_results` cap
(checked with Python truthiness, so `None` and `0` disable it) may truncate
and break, a short page breaks, and after advancing the page the hard
1000-result search limit may break. -/
def search_loop (per_page : Nat) (max_results : Option Nat) :
    List (PageResp α) → Nat → List α → List α × ExitReason
  | [], _, acc => (acc, .exhausted)
  | .rate :: rest, page, acc => search_loop per_page max_results rest page acc
  | .fail :: _, _, acc => (acc, .errorAbort)
  | .ok items :: rest, page, acc =>
    if items.isEmpty then (acc, .emptyPage)
    else
      let acc1 := acc ++ items
      if (match max_results with
          | some m => m != 0 && decide (m ≤ acc1.length)
          | none => false) then
        (acc1.take (max_results.getD 0), .maxReached)
      else if items.length < per_page then (acc1, .pageShort)
      else if 1000 ≤ acc1.length then (acc1, .ceiling)
      else search_loop per_page max_results rest (page + 1) acc1

/-- `search_code_files` run against a response transcript, starting at
page 1 with nothing collected. -/
def search_code_files (per_page : Nat) (max_results : Option Nat)
    (transcript : List (PageResp α)) : List α × ExitReason :=
  search_loop per_page max_results transcript 1 []

end GitHubCodeSearch

namespace JulesPRScraper

/-- The dict `fetch_jules_prs_api` returns to the pagination loop
(`working-scrapers/jules_pr_scraper.py` lines 45-92): a 403 returns
`{'items': [], 'total_count': 0}` immediately (no sleep, no retry; the
missing `has_more` key reads as `False`); any other non-200 raises, is
caught, and returns empty items with `has_more = False`; a 200 page returns
its items with `has_more = (len(items) == per_page)`. -/
def fetch_jules_prs_api (per_page : Nat) : PageResp α → List α × Bool
  | .rate => ([], false)
  | .fail => ([], false)
  | .ok items => (items, items.length == per_page)

/-- The `while True` loop of `fetch_all_prs_api` (`jules_pr_scraper.py`
lines 126-163): break on empty items, break when `has_more` is false,
advance the page, and break once 1000 collected results are reached. -/
def fetch_all_loop (per_page : Nat) :
    List (PageResp α) → Nat → List α → List α × ExitReason
  | [], _, acc => (acc, .exhausted)
  | r :: rest, page, acc =>
    let resp := fetch_jules_prs_api per_page r
    if resp.1.isEmpty then (acc, .emptyPage)
    else
      let acc1 := acc ++ resp.1
      if !resp.2 then (acc1, .noMoreFlag)
      else if 1000 ≤ acc1.length then (acc1, .ceiling)
      else fetch_all_loop per_page rest (page + 1) acc1

/-- `fetch_all_prs_api` run against a response transcript, from page 1. -/
def fetch_all_prs_api (per_page : Nat) (transcript : List (PageResp α)) :
    List α × ExitReason :=
  fetch_all_loop per_page transcript 1 []

end JulesPRScraper

namespace BoltFetcher

/-- `fetch_gallery_projects` (`scrapers/bolt_supabase_scraper.py` lines
73-108): any `RequestException` (a 403/429 or any other non-200 raised by
`raise_for_status`, or a transport failure) is caught and yields `[]`;
a 200 page yields its items. -/
def fetch_gallery_projects : PageResp α → List α
  | .rate => []
  | .fail => []
  | .ok items => items

/-- The `while True` loop of `fetch_all_projects`
(`bolt_supabase_scraper.py` lines 110-139): break on an empty batch, append
the batch, break when the batch is shorter than the requested limit,
otherwise advance the offset and continue. -/
def fetch_all_loop (limit : Nat) :
    List (PageResp α) → Nat → List α → List α × ExitReason
  | [], _, acc => (acc, .exhausted)
  | r :: rest, offset, acc =>
    let batch := fetch_gallery_projects r
    if batch.isEmpty then (acc, .emptyPage)
    else
      let acc1 := acc ++ batch
      if batch.length < limit then (acc1, .pageShort)
      else fetch_all_loop limit rest (offset + limit) acc1

/-- `fetch_all_projects` run against a response transcript (source fixes
`limit = 1000`, offset starts at 0). -/
def fetch_all_projects (transcript : List (PageResp α)) :
    List α × ExitReason :=
  fetch_all_loop 1000 transcript 0 []

end BoltFetcher

/-- Number of `applications` rows matching the identity key `(p, e)`. -/
def countKey (db : AppsDB) (p : Nat) (e : String) : Nat :=
  db.rows.countP (appKeyMatch p e)

/-- The identity-key uniqueness invariant of the `applications` table:
no `(platform_id, external_id)` pair identifies two rows. -/
def KeyUnique (db : AppsDB) : Prop :=
  ∀ p e, countKey db p e ≤ 1

/-- Some `applications` row carries the identity key `(p, e)`. -/
def hasKey (db : AppsDB) (p : Nat) (e : String) : Prop :=
  ∃ r ∈ db.rows, appKeyMatch p e r = true

/-- Some `apps` row of the integrator's table carries url `u`. -/
def hasUrl (db : DataIntegrator.IntDB) (u : String) : Prop :=
  ∃ r ∈ db.apps, r.url = u

/-- A concrete four-platform store used to exercise the cleanup script:
one application owned by platform 2 and one owned by platform 4. -/
def cexCleanupState : CleanupState :=
  { applications :=
      [{ id := 1, platform_id := 2, external_id := "e1", name := "n1",
         url := "u1", description := "d1", updated_at := 0 },
       { id := 2, platform_id := 4, external_id := "e2", name := "n2",
         url := "u2", description := "d2", updated_at := 0 }],
    platforms :=
      [{ id := 1, name := "GitHub", url := "g" },
       { id := 2, name := "github.com", url := "g2" },
       { id := 3, name := "Bolt", url := "b" },
       { id := 4, name := "bolt.new", url := "b2" }] }

/-- A concrete one-row applications table whose row carries key `(1, "7")`. -/
def cexAppsDB : AppsDB :=
  { rows := [{ id := 1, platform_id := 1, external_id := "7", name := "old",
               url := "oldurl", description := "olddesc", updated_at := 0 }],
    nextId := 2 }

/-- A concrete one-row integrator `apps` table whose row carries url "u". -/
def cexIntDB : DataIntegrator.IntDB :=
  { apps := [{ id := 1, name := "n", description := "d", url := "u",
               source_platform := "p", created_at := 0, updated_at := 0,
               stars := 0, language := "", license := "", topics := "[]",
               raw_data := "raw" }],
    nextId := 2 }

/-- A concrete integrator record reusing url "u". -/
def cexIntApp : DataIntegrator.IntAppData :=
  { name := some "n2", description := none, url := some "u",
    source_platform := none, created_at := none, stars := none,
    language := none, license := none, topics := none, raw_data := "raw2" }

end VibeDB

namespace VibeDB

/-- The two `_insert_or_update_application` methods have verbatim-identical
bodies. -/
theorem v0_upsert_eq_github :
    V0DataProcessor.insert_or_update_application =
      GitHubDataProcessor.insert_or_update_application := rfl

theorem appKeyMatch_update (p : Nat) (e : String) (q : AppRow)
    (n u d : String) (t : Nat) :
    appKeyMatch p e
        { q with name := n, url := u, description := d, updated_at := t } =
      appKeyMatch p e q := rfl

theorem upsert_rows_some {db : AppsDB} {a : AppData} {now : Nat} {r : AppRow}
    (hf : db.rows.find? (appKeyMatch a.platform_id a.external_id) = some r) :
    (GitHubDataProcessor.insert_or_update_application db a now).2.rows =
      db.rows.map fun q =>
        if q.id == r.id then
          { q with name := a.name, url := a.url, description := a.description,
                   updated_at := now }
        else q := by
  simp only [GitHubDataProcessor.insert_or_update_application, hf]

theorem upsert_rows_none {db : AppsDB} {a : AppData} {now : Nat}
    (hf : db.rows.find? (appKeyMatch a.platform_id a.external_id) = none) :
    (GitHubDataProcessor.insert_or_update_application db a now).2.rows =
      db.rows ++
        [{ id := db.nextId, platform_id := a.platform_id,
           external_id := a.external_id, name := a.name, url := a.url,
           description := a.description, updated_at := now }] := by
  simp only [GitHubDataProcessor.insert_or_update_application, hf]

theorem countKey_upsert_some {db : AppsDB} {a : AppData} {now : Nat} {r : AppRow}
    (hf : db.rows.find? (appKeyMatch a.platform_id a.external_id) = some r)
    (p : Nat) (e : String) :
    countKey (GitHubDataProcessor.insert_or_update_application db a now).2 p e =
      countKey db p e := by
  unfold countKey
  rw [upsert_rows_some hf, List.countP_map]
  apply List.countP_congr
  intro q _
  by_cases hq : q.id = r.id <;> simp [hq, appKeyMatch]

theorem countKey_find?_none {db : AppsDB} {p : Nat} {e : String}
    (hf : db.rows.find? (appKeyMatch p e) = none) :
    countKey db p e = 0 := by
  exact List.countP_eq_zero.mpr (by simpa using List.find?_eq_none.mp hf)

theorem countKey_upsert_none {db : AppsDB} {a : AppData} {now : Nat}
    (hf : db.rows.find? (appKeyMatch a.platform_id a.external_id) = none)
    (p : Nat) (e : String) :
    countKey (GitHubDataProcessor.insert_or_update_application db a now).2 p e =
      countKey db p e +
        if appKeyMatch p e
            { id := db.nextId, platform_id := a.platform_id,
              external_id := a.external_id, name := a.name, url := a.url,
              description := a.description, updated_at := now } then 1 else 0 := by
  unfold countKey
  rw [upsert_rows_none hf, List.countP_append]
  simp [List.countP_cons]

/-- Every upsert preserves the identity-key uniqueness invariant. -/
theorem keyUnique_upsert {db : AppsDB} (a : AppData) (now : Nat)
    (h : KeyUnique db) :
    KeyUnique (GitHubDataProcessor.insert_or_update_application db a now).2 := by
  intro p e
  cases hf : db.rows.find? (appKeyMatch a.platform_id a.external_id) with
  | some r => rw [countKey_upsert_some hf]; exact h p e
  | none =>
      rw [countKey_upsert_none hf]
      split
      · next hmatch =>
          have hpe : a.platform_id = p ∧ a.external_id = e := by
            simpa [appKeyMatch] using hmatch
          have h0 : countKey db p e = 0 := by
            rw [← hpe.1, ← hpe.2]; exact countKey_find?_none hf
          omega
      · have := h p e; omega

/-- After upserting `a`, its own identity key matches exactly one row,
provided the table satisfied the uniqueness invariant beforehand. -/
theorem countKey_upsert_self {db : AppsDB} (a : AppData) (now : Nat)
    (h : KeyUnique db) :
    countKey (GitHubDataProcessor.insert_or_update_application db a now).2
      a.platform_id a.external_id = 1 := by
  cases hf : db.rows.find? (appKeyMatch a.platform_id a.external_id) with
  | some r =>
      rw [countKey_upsert_some hf]
      have hr := List.find?_some hf
      have hmem := List.mem_of_find?_eq_some hf
      have hpos : 0 < countKey db a.platform_id a.external_id :=
        List.countP_pos_iff.mpr ⟨r, hmem, hr⟩
      have := h a.platform_id a.external_id
      omega
  | none =>
      rw [countKey_upsert_none hf]
      have h0 := countKey_find?_none hf
      simp [appKeyMatch, h0]

theorem hasKey_upsert_mono {db : AppsDB} {p : Nat} {e : String}
    (a : AppData) (now : Nat) (h : hasKey db p e) :
    hasKey (GitHubDataProcessor.insert_or_update_application db a now).2 p e := by
  obtain ⟨r, hmem, hr⟩ := h
  cases hf : db.rows.find? (appKeyMatch a.platform_id a.external_id) with
  | some r0 =>
      refine ⟨if r.id == r0.id then
          { r with name := a.name, url := a.url,
                   description := a.description, updated_at := now }
        else r, ?_, ?_⟩
      · rw [upsert_rows_some hf]
        exact List.mem_map_of_mem _ hmem
      · by_cases hq : (r.id == r0.id) = true
        · rw [if_pos hq, appKeyMatch_update]; exact hr
        · rw [if_neg hq]; exact hr
  | none =>
      refine ⟨r, ?_, hr⟩
      rw [upsert_rows_none hf]
      exact List.mem_append_left _ hmem

theorem hasKey_upsert_self (db : AppsDB) (a : AppData) (now : Nat) :
    hasKey (GitHubDataProcessor.insert_or_update_application db a now).2
      a.platform_id a.external_id := by
  cases hf : db.rows.find? (appKeyMatch a.platform_id a.external_id) with
  | some r0 =>
      have hr := List.find?_some hf
      have hmem := List.mem_of_find?_eq_some hf
      refine ⟨if r0.id == r0.id then
          { r0 with name := a.name, url := a.url,
                    description := a.description, updated_at := now }
        else r0, ?_, ?_⟩
      · rw [upsert_rows_some hf]
        exact List.mem_map_of_mem _ hmem
      · rw [if_pos (beq_self_eq_true r0.id), appKeyMatch_update]; exact hr
  | none =>
      refine ⟨{ id := db.nextId, platform_id := a.platform_id,
                external_id := a.external_id, name := a.name, url := a.url,
                description := a.description, updated_at := now }, ?_, ?_⟩
      · rw [upsert_rows_none hf]
        exact List.mem_append_right _ (List.mem_singleton.mpr rfl)
      · simp [appKeyMatch]

theorem upsert_length_of_hasKey {db : AppsDB} {a : AppData} (now : Nat)
    (h : hasKey db a.platform_id a.external_id) :
    (GitHubDataProcessor.insert_or_update_application db a now).2.rows.length =
      db.rows.length := by
  cases hf : db.rows.find? (appKeyMatch a.platform_id a.external_id) with
  | some r => rw [upsert_rows_some hf, List.length_map]
  | none =>
      obtain ⟨r, hmem, hr⟩ := h
      have := List.find?_eq_none.mp hf r hmem
      simp [hr] at this

theorem pgsr_nil (db : AppsDB) (pid now : Nat) :
    GitHubDataProcessor.process_github_search_results db pid [] now = db := rfl

theorem pgsr_cons (db : AppsDB) (pid now : Nat)
    (it : GitHubDataProcessor.GHSearchItem)
    (rest : List GitHubDataProcessor.GHSearchItem) :
    GitHubDataProcessor.process_github_search_results db pid (it :: rest) now =
      GitHubDataProcessor.process_github_search_results
        (if it.repo_id.getD 0 == 0 then db
         else (GitHubDataProcessor.insert_or_update_application db
            (GitHubDataProcessor.itemAppData pid it) now).2)
        pid rest now := rfl

theorem pgsr_hasKey_mono {p : Nat} {e : String} (pid now : Nat)
    (items : List GitHubDataProcessor.GHSearchItem) :
    ∀ {db : AppsDB}, hasKey db p e →
      hasKey (GitHubDataProcessor.process_github_search_results db pid items now)
        p e := by
  induction items with
  | nil => intro db h; exact h
  | cons it rest ih =>
      intro db h
      rw [pgsr_cons]
      by_cases hskip : (it.repo_id.getD 0 == 0) = true
      · rw [if_pos hskip]; exact ih h
      · rw [if_neg hskip]; exact ih (hasKey_upsert_mono _ now h)

theorem pgsr_establishes (pid now : Nat)
    (items : List GitHubDataProcessor.GHSearchItem) :
    ∀ {db : AppsDB}, ∀ it ∈ items, (it.repo_id.getD 0 == 0) = false →
      hasKey (GitHubDataProcessor.process_github_search_results db pid items now)
        pid (toString (it.repo_id.getD 0)) := by
  induction items with
  | nil => intro db it hmem; cases hmem
  | cons hd rest ih =>
      intro db it hmem hvalid
      rw [pgsr_cons]
      rcases List.mem_cons.mp hmem with rfl | hmem2
      · rw [if_neg (by simp [hvalid])]
        exact pgsr_hasKey_mono pid now rest
          (hasKey_upsert_self db (GitHubDataProcessor.itemAppData pid it) now)
      · by_cases hskip : (hd.repo_id.getD 0 == 0) = true
        · rw [if_pos hskip]; exact ih it hmem2 hvalid
        · rw [if_neg hskip]; exact ih it hmem2 hvalid

theorem pgsr_length_of_keys (pid now : Nat)
    (items : List GitHubDataProcessor.GHSearchItem) :
    ∀ {db : AppsDB},
      (∀ it ∈ items, (it.repo_id.getD 0 == 0) = false →
        hasKey db pid (toString (it.repo_id.getD 0))) →
      (GitHubDataProcessor.process_github_search_results db pid items now).rows.length
        = db.rows.length := by
  induction items with
  | nil => intro db _; rfl
  | cons hd rest ih =>
      intro db hkeys
      rw [pgsr_cons]
      by_cases hskip : (hd.repo_id.getD 0 == 0) = true
      · rw [if_pos hskip]
        exact ih fun it hmem hv => hkeys it (List.mem_cons_of_mem _ hmem) hv
      · rw [if_neg hskip]
        have hhd : hasKey db pid (toString (hd.repo_id.getD 0)) :=
          hkeys hd (List.mem_cons_self _ _) (Bool.not_eq_true _ ▸ hskip : _)
        have hstep :=
          @upsert_length_of_hasKey db (GitHubDataProcessor.itemAppData pid hd)
            now hhd
        rw [ih fun it hmem hv =>
          hasKey_upsert_mono _ now (hkeys it (List.mem_cons_of_mem _ hmem) hv)]
        exact hstep

theorem insert_app_of_hasUrl {db : DataIntegrator.IntDB}
    {a : DataIntegrator.IntAppData} {now : Nat}
    (h : hasUrl db (a.url.getD "")) :
    DataIntegrator.insert_app db a now = (none, db) := by
  obtain ⟨r, hmem, hu⟩ := h
  have hany : (db.apps.any fun x => x.url == a.url.getD "") = true :=
    List.any_eq_true.mpr ⟨r, hmem, by simp [hu]⟩
  by_cases h0 : a.url.getD "" = ""
  · simp [DataIntegrator.insert_app, hany, h0]
    exact ⟨r, hmem, h0 ▸ hu⟩
  · simp [DataIntegrator.insert_app, hany, h0]

theorem insert_app_hasUrl_self (db : DataIntegrator.IntDB)
    (a : DataIntegrator.IntAppData) (now : Nat) :
    hasUrl (DataIntegrator.insert_app db a now).2 (a.url.getD "") := by
  by_cases h : hasUrl db (a.url.getD "")
  · rw [insert_app_of_hasUrl h]; exact h
  · have hany : (db.apps.any fun x => x.url == a.url.getD "") = false := by
      rw [List.any_eq_false]
      intro x hx
      simp only [beq_iff_eq]
      exact fun hxe => h ⟨x, hx, hxe⟩
    refine ⟨{ id := db.nextId, name := a.name.getD "",
              description := a.description.getD "", url := a.url.getD "",
              source_platform := a.source_platform.getD "",
              created_at := a.created_at.getD now, updated_at := now,
              stars := a.stars.getD 0, language := a.language.getD "",
              license := a.license.getD "", topics := a.topics.getD "[]",
              raw_data := a.raw_data }, ?_, rfl⟩
    simp [DataIntegrator.insert_app, hany]

theorem insert_app_hasUrl_mono {db : DataIntegrator.IntDB}
    {a : DataIntegrator.IntAppData} {now : Nat} {u : String}
    (h : hasUrl db u) :
    hasUrl (DataIntegrator.insert_app db a now).2 u := by
  obtain ⟨r, hmem, hu⟩ := h
  refine ⟨r, ?_, hu⟩
  simp only [DataIntegrator.insert_app]
  split
  · exact hmem
  · split
    · exact hmem
    · exact List.mem_append_left _ hmem

theorem ingest_cons (db : DataIntegrator.IntDB)
    (a : DataIntegrator.IntAppData) (rest : List DataIntegrator.IntAppData)
    (now : Nat) :
    DataIntegrator.ingest db (a :: rest) now =
      DataIntegrator.ingest (DataIntegrator.insert_app db a now).2 rest now := rfl

theorem ingest_hasUrl_mono {u : String} (now : Nat)
    (recs : List DataIntegrator.IntAppData) :
    ∀ {db : DataIntegrator.IntDB}, hasUrl db u →
      hasUrl (DataIntegrator.ingest db recs now) u := by
  induction recs with
  | nil => intro db h; exact h
  | cons hd rest ih =>
      intro db h
      rw [ingest_cons]
      exact ih (insert_app_hasUrl_mono h)

theorem ingest_establishes (now : Nat) (recs : List DataIntegrator.IntAppData) :
    ∀ {db : DataIntegrator.IntDB}, ∀ a ∈ recs,
      hasUrl (DataIntegrator.ingest db recs now) (a.url.getD "") := by
  induction recs with
  | nil => intro db a hmem; cases hmem
  | cons hd rest ih =>
      intro db a hmem
      rw [ingest_cons]
      rcases List.mem_cons.mp hmem with rfl | hmem2
      · exact ingest_hasUrl_mono now rest (insert_app_hasUrl_self db a now)
      · exact ih a hmem2

theorem ingest_fixed_of_urls (now : Nat) (recs : List DataIntegrator.IntAppData) :
    ∀ {db : DataIntegrator.IntDB},
      (∀ a ∈ recs, hasUrl db (a.url.getD "")) →
      DataIntegrator.ingest db recs now = db := by
  induction recs with
  | nil => intro db _; rfl
  | cons hd rest ih =>
      intro db hurls
      rw [ingest_cons, insert_app_of_hasUrl (hurls hd (List.mem_cons_self _ _))]
      exact ih fun a hmem => hurls a (List.mem_cons_of_mem _ hmem)

/-- C1: re-running a source's ingestion over the same dataset against a store
that was empty before the first run leaves the applications row count
unchanged: the `process_data.py` upsert turns every re-seen
`(platform_id, external_id)` into an in-place UPDATE, and the
`data_integration.py` `insert_app` skips every re-seen url, so the second
run creates no rows. -/
theorem C1_idempotent_reingestion :
    (∀ (platform_id : Nat) (items : List GitHubDataProcessor.GHSearchItem)
        (now now' : Nat),
      (GitHubDataProcessor.process_github_search_results
          (GitHubDataProcessor.process_github_search_results emptyAppsDB
            platform_id items now)
          platform_id items now').rows.length =
        (GitHubDataProcessor.process_github_search_results emptyAppsDB
          platform_id items now).rows.length)
    ∧ (∀ (recs : List DataIntegrator.IntAppData) (now now' : Nat),
      (DataIntegrator.ingest
          (DataIntegrator.ingest DataIntegrator.emptyIntDB recs now)
          recs now').apps.length =
        (DataIntegrator.ingest DataIntegrator.emptyIntDB recs now).apps.length) := by
  constructor
  · intro pid items now now'
    exact pgsr_length_of_keys pid now' items fun it hmem hv =>
      pgsr_establishes pid now items it hmem hv
  · intro recs now now'
    rw [ingest_fixed_of_urls now' recs fun a hmem =>
      ingest_establishes now recs a hmem]

/-- C2: records from the same platform with the same non-empty external
identifier collapse into exactly one applications row after both are
upserted (starting from any table satisfying the identity-key uniqueness
invariant), and every upsert of either processor preserves that invariant. -/
theorem C2_identity_key_uniqueness (db : AppsDB) (a1 a2 : AppData)
    (now1 now2 : Nat) (hinv : KeyUnique db)
    (hp : a1.platform_id = a2.platform_id)
    (he : a1.external_id = a2.external_id)
    (hne : a1.external_id ≠ "") :
    countKey ((GitHubDataProcessor.insert_or_update_application
        (GitHubDataProcessor.insert_or_update_application db a1 now1).2
        a2 now2).2) a2.platform_id a2.external_id = 1
    ∧ countKey ((V0DataProcessor.insert_or_update_application
        (V0DataProcessor.insert_or_update_application db a1 now1).2
        a2 now2).2) a2.platform_id a2.external_id = 1
    ∧ (∀ (db' : AppsDB) (a : AppData) (now : Nat), KeyUnique db' →
        KeyUnique (GitHubDataProcessor.insert_or_update_application db' a now).2)
    ∧ (∀ (db' : AppsDB) (a : AppData) (now : Nat), KeyUnique db' →
        KeyUnique (V0DataProcessor.insert_or_update_application db' a now).2) := by
  refine ⟨?_, ?_, ?_, ?_⟩
  · exact countKey_upsert_self a2 now2 (keyUnique_upsert a1 now1 hinv)
  · rw [v0_upsert_eq_github]
    exact countKey_upsert_self a2 now2 (keyUnique_upsert a1 now1 hinv)
  · exact fun db' a now h => keyUnique_upsert a now h
  · rw [v0_upsert_eq_github]
    exact fun db' a now h => keyUnique_upsert a now h

/-- Witness for C2 at a concrete input: upserting the same GitHub record
twice into the empty table leaves exactly one row for key `(1, "x1")`. -/
theorem C2_identity_key_uniqueness_witness :
    countKey ((GitHubDataProcessor.insert_or_update_application
        (GitHubDataProcessor.insert_or_update_application emptyAppsDB
          ⟨1, "x1", "n", "u", "d"⟩ 0).2
        ⟨1, "x1", "n", "u", "d"⟩ 1).2) 1 "x1" = 1
    ∧ countKey ((V0DataProcessor.insert_or_update_application
        (V0DataProcessor.insert_or_update_application emptyAppsDB
          ⟨1, "x1", "n", "u", "d"⟩ 0).2
        ⟨1, "x1", "n", "u", "d"⟩ 1).2) 1 "x1" = 1
    ∧ (∀ (db' : AppsDB) (a : AppData) (now : Nat), KeyUnique db' →
        KeyUnique (GitHubDataProcessor.insert_or_update_application db' a now).2)
    ∧ (∀ (db' : AppsDB) (a : AppData) (now : Nat), KeyUnique db' →
        KeyUnique (V0DataProcessor.insert_or_update_application db' a now).2) :=
  C2_identity_key_uniqueness emptyAppsDB ⟨1, "x1", "n", "u", "d"⟩
    ⟨1, "x1", "n", "u", "d"⟩ 0 1
    (fun p e => by simp [countKey, emptyAppsDB]) rfl rfl (by decide)

theorem countP_repoint (keep merge now : Nat) (hne : keep ≠ merge)
    (l : List AppRow) :
    ((l.map fun a =>
        if a.platform_id == merge then
          { a with platform_id := keep, updated_at := now }
        else a).countP fun a => a.platform_id == keep) =
      (l.countP fun a => a.platform_id == keep) +
        (l.countP fun a => a.platform_id == merge) := by
  induction l with
  | nil => rfl
  | cons a t ih =>
      simp only [List.map_cons, List.countP_cons, ih]
      by_cases h1 : a.platform_id = merge
      · have h2 : (merge == keep) = false := by
          simp [beq_iff_eq]; exact fun h => hne h.symm
        simp [h1, h2]
        omega
      · simp [h1]
        omega

theorem countOwned_mergePair {keep merge : Nat} (hne : keep ≠ merge)
    (s : CleanupState) (now : Nat) :
    countOwned (mergePair s keep merge now) keep =
      countOwned s keep + countOwned s merge := by
  unfold countOwned mergePair
  exact countP_repoint keep merge now hne s.applications

theorem merge_not_in_platIds (s : CleanupState) (keep merge now : Nat) :
    merge ∉ platIds (mergePair s keep merge now) := by
  intro h
  obtain ⟨p, hp, hid⟩ := List.mem_map.mp h
  have := (List.mem_filter.mp hp).2
  simp [hid] at this

theorem refOK_mergePair {s : CleanupState} {keep merge : Nat} (now : Nat)
    (hne : keep ≠ merge) (hkeep : keep ∈ platIds s) (href : RefOK s) :
    RefOK (mergePair s keep merge now) := by
  intro a' ha'
  obtain ⟨a, hmem, rfl⟩ := List.mem_map.mp ha'
  by_cases h1 : a.platform_id = merge
  · rw [if_pos (by simp [h1])]
    obtain ⟨p, hp, hpid⟩ := List.mem_map.mp hkeep
    refine List.mem_map.mpr ⟨p, List.mem_filter.mpr ⟨hp, ?_⟩, hpid⟩
    simp [hpid]
    exact hne
  · rw [if_neg (by simp [h1])]
    obtain ⟨p, hp, hpid⟩ := List.mem_map.mp (href a hmem)
    refine List.mem_map.mpr ⟨p, List.mem_filter.mpr ⟨hp, ?_⟩, hpid⟩
    simp [hpid]
    exact h1

/-- C3: for distinct platforms, the cleanup script's merge of platform
`merge` into platform `keep` leaves `keep` owning exactly the sum of both
platforms' application counts, removes the `merge` platform row, preserves
referential integrity (given `keep` exists), and — because the whole run sits
in one transaction that is rolled back on error — a failure mid-way leaves
neither the re-pointing nor the deletion in effect. -/
theorem C3_merge_correct (s : CleanupState) (keep merge now : Nat)
    (hne : keep ≠ merge) (hkeep : keep ∈ platIds s) (href : RefOK s) :
    countOwned (mergePair s keep merge now) keep =
      countOwned s keep + countOwned s merge
    ∧ merge ∉ platIds (mergePair s keep merge now)
    ∧ RefOK (mergePair s keep merge now)
    ∧ cleanup_platform_duplicates s [(keep, merge)] (some 0) now = (s, false)
    ∧ cleanup_platform_duplicates s [(keep, merge)] none now =
        (mergePair s keep merge now, true) :=
  ⟨countOwned_mergePair hne s now, merge_not_in_platIds s keep merge now,
   refOK_mergePair now hne hkeep href, rfl, rfl⟩

/-- Witness for C3 on the concrete four-platform store: merging platform 2
into platform 1. -/
theorem C3_merge_correct_witness :
    countOwned (mergePair cexCleanupState 1 2 5) 1 =
      countOwned cexCleanupState 1 + countOwned cexCleanupState 2
    ∧ 2 ∉ platIds (mergePair cexCleanupState 1 2 5)
    ∧ RefOK (mergePair cexCleanupState 1 2 5)
    ∧ cleanup_platform_duplicates cexCleanupState [(1, 2)] (some 0) 5 =
        (cexCleanupState, false)
    ∧ cleanup_platform_duplicates cexCleanupState [(1, 2)] none 5 =
        (mergePair cexCleanupState 1 2 5, true) :=
  C3_merge_correct cexCleanupState 1 2 5 (by decide) (by decide)
    (by unfold RefOK; decide)

theorem mergeLoop_err_of_lt {pairs : List (Nat × Nat)} :
    ∀ {k : Nat} {s : CleanupState} {now : Nat}, k < pairs.length →
      mergeLoop s pairs (some k) now = .err := by
  induction pairs with
  | nil => intro k s now h; exact absurd h (Nat.not_lt_zero k)
  | cons p ps ih =>
      intro k s now h
      cases k with
      | zero => rfl
      | succ k => exact ih (Nat.lt_of_succ_lt_succ h)

theorem mergeLoop_none_eq_foldl (pairs : List (Nat × Nat)) :
    ∀ (s : CleanupState) (now : Nat),
      mergeLoop s pairs none now =
        .ok (pairs.foldl (fun t p => mergePair t p.1 p.2 now) s) := by
  induction pairs with
  | nil => intro s now; rfl
  | cons p ps ih => intro s now; exact ih (mergePair s p.1 p.2 now) now

/-- C4 counterexample: with pairs `[(1,2),(3,4)]` over the concrete store
and an exception raised while merging the second pair, the script's single
whole-run transaction rolls back the FIRST pair's changes as well (the final
state is the initial one, and the run aborts), whereas the claimed per-pair
transaction semantics — `cleanupPerPairSpec`, modelled from the spec — keeps
the first pair's merge (platform 2 deleted) and skips only the failing pair
(platform 4 kept).  The code thus neither contains the rollback to one pair
nor continues with the remaining pairs. -/
theorem C4_per_pair_counterexample :
    cleanup_platform_duplicates cexCleanupState [(1, 2), (3, 4)] (some 1) 5 =
      (cexCleanupState, false)
    ∧ 2 ∈ platIds cexCleanupState
    ∧ 2 ∉ platIds (cleanupPerPairSpec cexCleanupState [(1, 2), (3, 4)]
        (some 1) 5)
    ∧ 4 ∈ platIds (cleanupPerPairSpec cexCleanupState [(1, 2), (3, 4)]
        (some 1) 5) := by
  refine ⟨by decide, by decide, by decide, by decide⟩

/-- C4 amended: `cleanup_platform_duplicates` runs one transaction over the
entire pair list; an error while merging any pair rolls back every pair's
changes and aborts the run, and only an error-free run applies all pairs in
order. -/
theorem C4_single_transaction (s0 : CleanupState) (pairs : List (Nat × Nat))
    (k now : Nat) (hk : k < pairs.length) :
    cleanup_platform_duplicates s0 pairs (some k) now = (s0, false)
    ∧ cleanup_platform_duplicates s0 pairs none now =
        (pairs.foldl (fun t p => mergePair t p.1 p.2 now) s0, true) := by
  constructor
  · unfold cleanup_platform_duplicates
    rw [mergeLoop_err_of_lt hk]
  · unfold cleanup_platform_duplicates
    rw [mergeLoop_none_eq_foldl]

/-- Witness for the amended C4 on the concrete store, failing at pair 1. -/
theorem C4_single_transaction_witness :
    cleanup_platform_duplicates cexCleanupState [(1, 2), (3, 4)] (some 1) 5 =
      (cexCleanupState, false)
    ∧ cleanup_platform_duplicates cexCleanupState [(1, 2), (3, 4)] none 5 =
        ([(1, 2), (3, 4)].foldl (fun t p => mergePair t p.1 p.2 5)
          cexCleanupState, true) :=
  C4_single_transaction cexCleanupState [(1, 2), (3, 4)] 1 5 (by decide)

/-- C5 counterexample: two `insert_platform` calls with the same name
"Bolt" on the empty table.  `INSERT OR REPLACE` deletes the conflicting row
and inserts a fresh one with a newly assigned AUTOINCREMENT id, so the
second call returns id 2 while the first returned id 1 — refuting the
claim's "the second call returns the same platform id as the first call"
(exactly one "Bolt" row does remain). -/
theorem C5_same_id_counterexample :
    (DataIntegrator.insert_platform DataIntegrator.emptyPlatDB
      "Bolt" "d" "b" "m" 0).1 = 1
    ∧ (DataIntegrator.insert_platform
        (DataIntegrator.insert_platform DataIntegrator.emptyPlatDB
          "Bolt" "d" "b" "m" 0).2 "Bolt" "d2" "b2" "m2" 1).1 = 2
    ∧ (DataIntegrator.insert_platform
        (DataIntegrator.insert_platform DataIntegrator.emptyPlatDB
          "Bolt" "d" "b" "m" 0).2 "Bolt" "d2" "b2" "m2" 1).1 ≠
      (DataIntegrator.insert_platform DataIntegrator.emptyPlatDB
        "Bolt" "d" "b" "m" 0).1
    ∧ ((DataIntegrator.insert_platform
        (DataIntegrator.insert_platform DataIntegrator.emptyPlatDB
          "Bolt" "d" "b" "m" 0).2 "Bolt" "d2" "b2" "m2" 1).2.rows.countP
        fun r => r.name == "Bolt") = 1 :=
  ⟨by decide, by decide, by decide, by decide⟩

theorem insert_platform_count_one (db : DataIntegrator.PlatDB)
    (name d b m : String) (now : Nat) :
    ((DataIntegrator.insert_platform db name d b m now).2.rows.countP
      fun r => r.name == name) = 1 := by
  unfold DataIntegrator.insert_platform
  rw [List.countP_append]
  have h0 : ((db.rows.filter fun r => !(r.name == name)).countP
      fun r => r.name == name) = 0 := by
    rw [List.countP_eq_zero]
    intro x hx
    have hfilt := (List.mem_filter.mp hx).2
    simp at hfilt ⊢
    exact hfilt
  rw [h0]
  simp [List.countP_cons]

/-- C5 amended: `insert_platform` is idempotent only at the row level —
after a second call with the same name exactly one row with that name
remains, carrying the refreshed metadata — but the `INSERT OR REPLACE`
assigns the replacement row a fresh AUTOINCREMENT id, so the second call
returns the first call's id plus one, never the same id. -/
theorem C5_replace_semantics (db : DataIntegrator.PlatDB)
    (name d1 b1 m1 d2 b2 m2 : String) (now1 now2 : Nat) :
    (DataIntegrator.insert_platform
        (DataIntegrator.insert_platform db name d1 b1 m1 now1).2
        name d2 b2 m2 now2).1 =
      (DataIntegrator.insert_platform db name d1 b1 m1 now1).1 + 1
    ∧ ((DataIntegrator.insert_platform
        (DataIntegrator.insert_platform db name d1 b1 m1 now1).2
        name d2 b2 m2 now2).2.rows.countP fun r => r.name == name) = 1
    ∧ { id := db.nextId + 1, name := name, description := d2,
        base_url := b2, scraping_method := m2, last_scraped := now2 } ∈
      (DataIntegrator.insert_platform
        (DataIntegrator.insert_platform db name d1 b1 m1 now1).2
        name d2 b2 m2 now2).2.rows := by
  refine ⟨rfl, insert_platform_count_one _ name d2 b2 m2 now2, ?_⟩
  exact List.mem_append_right _ (List.mem_singleton.mpr rfl)

/-- C6 counterexample: the GitHub processor's bulk ingestion run, fed a
dataset whose item re-uses the already-present key `(1, "7")`, creates no
new row but UPDATEs the matched row's name, url, description and
updated_at in place — refuting the claim that a bulk-ingestion duplicate
"does not modify the existing row's fields". -/
theorem C6_bulk_update_counterexample :
    GitHubDataProcessor.process_github_search_results cexAppsDB 1
        [{ repo_id := some 7, full_name := "new", html_url := "newurl",
           description := "newdesc" }] 5 =
      { rows := [{ id := 1, platform_id := 1, external_id := "7",
                   name := "new", url := "newurl", description := "newdesc",
                   updated_at := 5 }], nextId := 2 }
    ∧ (GitHubDataProcessor.process_github_search_results cexAppsDB 1
        [{ repo_id := some 7, full_name := "new", html_url := "newurl",
           description := "newdesc" }] 5).rows ≠ cexAppsDB.rows :=
  ⟨by decide, by decide⟩

/-- C6 amended: the two deduplication gates behave differently on a
duplicate.  `DataIntegrator.insert_app` signals skip (returns `None`) and
leaves the table completely unchanged; the `process_data.py` upsert creates
no new row either, but refreshes the matched row's name, url, description
and updated_at in place. -/
theorem C6_dedup_gate (db : DataIntegrator.IntDB)
    (a : DataIntegrator.IntAppData) (now : Nat)
    (db2 : AppsDB) (a2 : AppData) (now2 : Nat) (r : AppRow)
    (hu : hasUrl db (a.url.getD ""))
    (hf : db2.rows.find? (appKeyMatch a2.platform_id a2.external_id) = some r) :
    DataIntegrator.insert_app db a now = (none, db)
    ∧ (GitHubDataProcessor.insert_or_update_application db2 a2 now2).2.rows.length
        = db2.rows.length
    ∧ { r with name := a2.name, url := a2.url,
               description := a2.description, updated_at := now2 } ∈
      (GitHubDataProcessor.insert_or_update_application db2 a2 now2).2.rows := by
  refine ⟨insert_app_of_hasUrl hu, ?_, ?_⟩
  · rw [upsert_rows_some hf, List.length_map]
  · rw [upsert_rows_some hf]
    have h2 := List.mem_map_of_mem
      (fun q => if q.id == r.id then
        { q with name := a2.name, url := a2.url,
                 description := a2.description, updated_at := now2 }
       else q)
      (List.mem_of_find?_eq_some hf)
    simpa using h2

/-- Witness for the amended C6 at concrete inputs: a duplicate url is
skipped with the table unchanged, and a duplicate key is updated in place
without a new row. -/
theorem C6_dedup_gate_witness :
    DataIntegrator.insert_app cexIntDB cexIntApp 9 = (none, cexIntDB)
    ∧ (GitHubDataProcessor.insert_or_update_application cexAppsDB
        ⟨1, "7", "new", "newurl", "newdesc"⟩ 5).2.rows.length
        = cexAppsDB.rows.length
    ∧ { id := 1, platform_id := 1, external_id := "7", name := "new",
        url := "newurl", description := "newdesc", updated_at := 5 } ∈
      (GitHubDataProcessor.insert_or_update_application cexAppsDB
        ⟨1, "7", "new", "newurl", "newdesc"⟩ 5).2.rows :=
  C6_dedup_gate cexIntDB cexIntApp 9 cexAppsDB
    ⟨1, "7", "new", "newurl", "newdesc"⟩ 5
    { id := 1, platform_id := 1, external_id := "7", name := "old",
      url := "oldurl", description := "olddesc", updated_at := 0 }
    (by unfold hasUrl; decide) (by decide)

/-- C7 counterexample: a raw record lacking every identity key (no name, no
title, no url; neither scraper's normalizer reads a "link" key) is NOT
dropped — each `process_project` still emits an output record, with the
missing fields degraded to empty strings.  The claim's "produces no output
record" prong is false. -/
theorem C7_no_drop_counterexample :
    (LovableScraper.process_projects [LovableScraper.emptyRawProject]).length
      = 1
    ∧ LovableScraper.emptyRawProject.name = none
    ∧ LovableScraper.emptyRawProject.title = none
    ∧ LovableScraper.emptyRawProject.url = none
    ∧ (LovableScraper.process_project LovableScraper.emptyRawProject).title
      = ""
    ∧ (LovableScraper.process_project LovableScraper.emptyRawProject).url = ""
    ∧ (BoltSupabaseScraper.process_projects
        [BoltSupabaseScraper.emptyRawProject]).length = 1
    ∧ (BoltSupabaseScraper.process_project
        BoltSupabaseScraper.emptyRawProject).title = ""
    ∧ (BoltSupabaseScraper.process_project
        BoltSupabaseScraper.emptyRawProject).project_url = "" :=
  ⟨rfl, rfl, rfl, rfl, rfl, rfl, rfl, rfl, rfl⟩

/-- C7 amended: both normalizers are total — each is a single dict-literal
of `.get`-with-default reads, so missing fields degrade to empty string,
zero, false or null — but no record is ever dropped: the normalization pass
is a plain map that preserves the record count, and an identity-less record
yields an output record with empty title and url. -/
theorem C7_normalizer_total :
    (∀ raws : List LovableScraper.RawProject,
      (LovableScraper.process_projects raws).length = raws.length)
    ∧ (∀ p : LovableScraper.RawProject, p.name = none → p.title = none →
        p.url = none →
        (LovableScraper.process_project p).title = ""
        ∧ (LovableScraper.process_project p).url = "")
    ∧ (∀ raws : List BoltSupabaseScraper.RawProject,
      (BoltSupabaseScraper.process_projects raws).length = raws.length)
    ∧ (∀ p : BoltSupabaseScraper.RawProject, p.title = none →
        p.project_url = none →
        (BoltSupabaseScraper.process_project p).title = ""
        ∧ (BoltSupabaseScraper.process_project p).project_url = "") := by
  refine ⟨?_, ?_, ?_, ?_⟩
  · intro raws; simp [LovableScraper.process_projects]
  · intro p h1 h2 h3
    exact ⟨by simp [LovableScraper.process_project, h1, h2],
           by simp [LovableScraper.process_project, h3]⟩
  · intro raws; simp [BoltSupabaseScraper.process_projects]
  · intro p h1 h2
    exact ⟨by simp [BoltSupabaseScraper.process_project, h1],
           by simp [BoltSupabaseScraper.process_project, h2]⟩

/-- Witness for the amended C7 at the empty raw record. -/
theorem C7_normalizer_total_witness :
    (LovableScraper.process_projects [LovableScraper.emptyRawProject]).length
      = [LovableScraper.emptyRawProject].length
    ∧ ((LovableScraper.process_project LovableScraper.emptyRawProject).title
        = ""
      ∧ (LovableScraper.process_project LovableScraper.emptyRawProject).url
        = "")
    ∧ (BoltSupabaseScraper.process_projects
        [BoltSupabaseScraper.emptyRawProject]).length
      = [BoltSupabaseScraper.emptyRawProject].length
    ∧ ((BoltSupabaseScraper.process_project
        BoltSupabaseScraper.emptyRawProject).title = ""
      ∧ (BoltSupabaseScraper.process_project
        BoltSupabaseScraper.emptyRawProject).project_url = "") :=
  ⟨C7_normalizer_total.1 [LovableScraper.emptyRawProject],
   C7_normalizer_total.2.1 LovableScraper.emptyRawProject rfl rfl rfl,
   C7_normalizer_total.2.2.1 [BoltSupabaseScraper.emptyRawProject],
   C7_normalizer_total.2.2.2 BoltSupabaseScraper.emptyRawProject rfl rfl⟩

theorem search_loop_rate_prefix {α : Type} (pp : Nat) (mr : Option Nat)
    (n : Nat) :
    ∀ (rest : List (PageResp α)) (page : Nat) (acc : List α),
      GitHubCodeSearch.search_loop pp mr
          (List.replicate n PageResp.rate ++ rest) page acc =
        GitHubCodeSearch.search_loop pp mr rest page acc := by
  induction n with
  | zero => intro rest page acc; rfl
  | succ n ih => intro rest page acc; exact ih rest page acc

theorem search_loop_rate_exhausts {α : Type} (pp : Nat) (mr : Option Nat)
    (n page : Nat) (acc : List α) :
    GitHubCodeSearch.search_loop pp mr (List.replicate n PageResp.rate)
        page acc = (acc, ExitReason.exhausted) := by
  have h :=
    search_loop_rate_prefix pp mr n ([] : List (PageResp α)) page acc
  rw [List.append_nil] at h
  exact h

/-- C8 counterexample: the two fetchers never implement
"sleep, retry once, then abort".  `search_code_files` survives two
consecutive rate-limit responses and still fetches the following page
(it retries without any cap instead of aborting after the second 403),
while the Jules fetcher aborts on the very first 403 without any retry
(its 403 branch returns an empty item list, which ends pagination). -/
theorem C8_backoff_counterexample :
    GitHubCodeSearch.search_code_files 100 none
        [PageResp.rate, PageResp.rate, PageResp.ok [()]] =
      ([()], ExitReason.pageShort)
    ∧ JulesPRScraper.fetch_all_prs_api 100 [(PageResp.rate : PageResp Unit)] =
        ([], ExitReason.emptyPage) :=
  ⟨rfl, rfl⟩

/-- C8 amended: on a rate-limit signal `search_code_files` sleeps 60s and
retries the same page unboundedly — any run of consecutive 403s is simply
absorbed, with no retry cap and no abort — whereas the Jules fetcher never
retries: the first 403 yields an empty item set that terminates pagination,
keeping the items collected so far. -/
theorem C8_rate_limit_policy :
    (∀ (α : Type) (pp : Nat) (mr : Option Nat) (n page : Nat)
        (rest : List (PageResp α)) (acc : List α),
      GitHubCodeSearch.search_loop pp mr
          (List.replicate n PageResp.rate ++ rest) page acc =
        GitHubCodeSearch.search_loop pp mr rest page acc)
    ∧ (∀ (α : Type) (pp page : Nat) (rest : List (PageResp α)) (acc : List α),
      JulesPRScraper.fetch_all_loop pp (PageResp.rate :: rest) page acc =
        (acc, ExitReason.emptyPage)) :=
  ⟨fun α pp mr n page rest acc => search_loop_rate_prefix pp mr n rest page acc,
   fun α pp page rest acc => rfl⟩

theorem bolt_loop_reasons {α : Type} (limit : Nat) :
    ∀ (t : List (PageResp α)) (off : Nat) (acc : List α),
      (BoltFetcher.fetch_all_loop limit t off acc).2 = ExitReason.emptyPage
      ∨ (BoltFetcher.fetch_all_loop limit t off acc).2 = ExitReason.pageShort
      ∨ (BoltFetcher.fetch_all_loop limit t off acc).2 =
          ExitReason.exhausted := by
  intro t
  induction t with
  | nil => intro off acc; right; right; rfl
  | cons r rest ih =>
      intro off acc
      cases r with
      | rate => left; rfl
      | fail => left; rfl
      | ok items =>
          by_cases hi : items.isEmpty = true
          · left; simp [BoltFetcher.fetch_all_loop,
              BoltFetcher.fetch_gallery_projects, hi]
          · by_cases hl : items.length < limit
            · right; left
              simp [BoltFetcher.fetch_all_loop,
                BoltFetcher.fetch_gallery_projects, hi, hl]
            · have hstep :
                  BoltFetcher.fetch_all_loop limit (PageResp.ok items :: rest)
                      off acc =
                    BoltFetcher.fetch_all_loop limit rest (off + limit)
                      (acc ++ items) := by
                simp [BoltFetcher.fetch_all_loop,
                  BoltFetcher.fetch_gallery_projects, hi, hl]
              rw [hstep]
              exact ih (off + limit) (acc ++ items)

theorem jules_step_ok {α : Type} (pp : Nat) (items : List α)
    (rest : List (PageResp α)) (page : Nat) (acc : List α)
    (hi : items.isEmpty = false) (hm : (items.length == pp) = true)
    (hc : ¬1000 ≤ acc.length + items.length) :
    JulesPRScraper.fetch_all_loop pp (PageResp.ok items :: rest) page acc =
      JulesPRScraper.fetch_all_loop pp rest (page + 1) (acc ++ items) := by
  simp [JulesPRScraper.fetch_all_loop, JulesPRScraper.fetch_jules_prs_api,
    hi, hm, hc]

theorem jules_loop_reasons {α : Type} (pp : Nat) :
    ∀ (t : List (PageResp α)) (page : Nat) (acc : List α),
      (JulesPRScraper.fetch_all_loop pp t page acc).2 = ExitReason.emptyPage
      ∨ (JulesPRScraper.fetch_all_loop pp t page acc).2 = ExitReason.noMoreFlag
      ∨ (JulesPRScraper.fetch_all_loop pp t page acc).2 = ExitReason.ceiling
      ∨ (JulesPRScraper.fetch_all_loop pp t page acc).2 =
          ExitReason.exhausted := by
  intro t
  induction t with
  | nil => intro page acc; right; right; right; rfl
  | cons r rest ih =>
      intro page acc
      cases r with
      | rate => left; rfl
      | fail => left; rfl
      | ok items =>
          cases hi : items.isEmpty with
          | true =>
              left
              simp [JulesPRScraper.fetch_all_loop,
                JulesPRScraper.fetch_jules_prs_api, hi]
          | false =>
              cases hm : (items.length == pp) with
              | false =>
                  right; left
                  simp [JulesPRScraper.fetch_all_loop,
                    JulesPRScraper.fetch_jules_prs_api, hi, hm]
              | true =>
                  by_cases hc : 1000 ≤ acc.length + items.length
                  · right; right; left
                    simp [JulesPRScraper.fetch_all_loop,
                      JulesPRScraper.fetch_jules_prs_api, hi, hm, hc]
                  · rw [jules_step_ok pp items rest page acc hi hm hc]
                    exact ih (page + 1) (acc ++ items)

theorem search_loop_reasons {α : Type} (pp : Nat) (mr : Option Nat) :
    ∀ (t : List (PageResp α)) (page : Nat) (acc : List α),
      (GitHubCodeSearch.search_loop pp mr t page acc).2 = ExitReason.emptyPage
      ∨ (GitHubCodeSearch.search_loop pp mr t page acc).2 =
          ExitReason.maxReached
      ∨ (GitHubCodeSearch.search_loop pp mr t page acc).2 =
          ExitReason.pageShort
      ∨ (GitHubCodeSearch.search_loop pp mr t page acc).2 = ExitReason.ceiling
      ∨ (GitHubCodeSearch.search_loop pp mr t page acc).2 =
          ExitReason.errorAbort
      ∨ (GitHubCodeSearch.search_loop pp mr t page acc).2 =
          ExitReason.exhausted := by
  intro t
  induction t with
  | nil =>
      intro page acc
      right; right; right; right; right; rfl
  | cons r rest ih =>
      intro page acc
      cases r with
      | rate => exact ih page acc
      | fail => right; right; right; right; left; rfl
      | ok items =>
          cases hi : items.isEmpty with
          | true => left; simp [GitHubCodeSearch.search_loop, hi]
          | false =>
              cases mr with
              | some m =>
                  cases hx : (m != 0 && decide (m ≤ acc.length + items.length))
                    with
                  | true =>
                      right; left
                      simp [GitHubCodeSearch.search_loop, hi, hx]
                  | false =>
                      by_cases hl : items.length < pp
                      · right; right; left
                        simp [GitHubCodeSearch.search_loop, hi, hx, hl]
                      · by_cases hc : 1000 ≤ acc.length + items.length
                        · right; right; right; left
                          simp [GitHubCodeSearch.search_loop, hi, hx, hl, hc]
                        · have hstep :
                              GitHubCodeSearch.search_loop pp (some m)
                                  (PageResp.ok items :: rest) page acc =
                                GitHubCodeSearch.search_loop pp (some m) rest
                                  (page + 1) (acc ++ items) := by
                            simp [GitHubCodeSearch.search_loop, hi, hx, hl, hc]
                          rw [hstep]
                          exact ih (page + 1) (acc ++ items)
              | none =>
                  by_cases hl : items.length < pp
                  · right; right; left
                    simp [GitHubCodeSearch.search_loop, hi, hl]
                  · by_cases hc : 1000 ≤ acc.length + items.length
                    · right; right; right; left
                      simp [GitHubCodeSearch.search_loop, hi, hl, hc]
                    · have hstep :
                          GitHubCodeSearch.search_loop pp none
                              (PageResp.ok items :: rest) page acc =
                            GitHubCodeSearch.search_loop pp none rest
                              (page + 1) (acc ++ items) := by
                        simp [GitHubCodeSearch.search_loop, hi, hl, hc]
                      rw [hstep]
                      exact ih (page + 1) (acc ++ items)

/-- C9 counterexample: `search_code_files`, given a full page followed by a
non-recoverable error response, stops with the 100 collected items even
though the last successful page was not shorter than requested, no empty
page or no-more signal appeared, and the 1000-result ceiling was not
reached — a stop condition outside the claim's "stops exactly when" list. -/
theorem C9_stop_conditions_counterexample :
    GitHubCodeSearch.search_code_files 100 none
        [PageResp.ok (List.replicate 100 ()), PageResp.fail] =
      (List.replicate 100 (), ExitReason.errorAbort)
    ∧ (List.replicate 100 ()).length = 100
    ∧ ExitReason.errorAbort ≠ ExitReason.pageShort
    ∧ ExitReason.errorAbort ≠ ExitReason.emptyPage
    ∧ ExitReason.errorAbort ≠ ExitReason.noMoreFlag
    ∧ ExitReason.errorAbort ≠ ExitReason.ceiling
    ∧ ExitReason.errorAbort ≠ ExitReason.maxReached :=
  ⟨rfl, rfl, by decide, by decide, by decide, by decide, by decide⟩

/-- C9 amended: over any finite response transcript the three fetch-all
loops stop only for these reasons — Bolt: empty page or short page; Jules:
empty page, has-more false, or the 1000-result ceiling; GitHub code search:
additionally a truncating `max_results` cap and an abort on any
non-recoverable error response; `exhausted` marks a transcript that ran out
while the loop would have kept requesting.  A pure stream of rate-limit
responses never terminates the GitHub search loop: every 403 is retried, so
the loop consumes the entire transcript and is still going. -/
theorem C9_pagination_termination :
    (∀ (α : Type) (limit : Nat) (t : List (PageResp α)) (off : Nat)
        (acc : List α),
      (BoltFetcher.fetch_all_loop limit t off acc).2 = ExitReason.emptyPage
      ∨ (BoltFetcher.fetch_all_loop limit t off acc).2 = ExitReason.pageShort
      ∨ (BoltFetcher.fetch_all_loop limit t off acc).2 = ExitReason.exhausted)
    ∧ (∀ (α : Type) (pp : Nat) (t : List (PageResp α)) (page : Nat)
        (acc : List α),
      (JulesPRScraper.fetch_all_loop pp t page acc).2 = ExitReason.emptyPage
      ∨ (JulesPRScraper.fetch_all_loop pp t page acc).2 = ExitReason.noMoreFlag
      ∨ (JulesPRScraper.fetch_all_loop pp t page acc).2 = ExitReason.ceiling
      ∨ (JulesPRScraper.fetch_all_loop pp t page acc).2 = ExitReason.exhausted)
    ∧ (∀ (α : Type) (pp : Nat) (mr : Option Nat) (t : List (PageResp α))
        (page : Nat) (acc : List α),
      (GitHubCodeSearch.search_loop pp mr t page acc).2 = ExitReason.emptyPage
      ∨ (GitHubCodeSearch.search_loop pp mr t page acc).2 =
          ExitReason.maxReached
      ∨ (GitHubCodeSearch.search_loop pp mr t page acc).2 =
          ExitReason.pageShort
      ∨ (GitHubCodeSearch.search_loop pp mr t page acc).2 = ExitReason.ceiling
      ∨ (GitHubCodeSearch.search_loop pp mr t page acc).2 =
          ExitReason.errorAbort
      ∨ (GitHubCodeSearch.search_loop pp mr t page acc).2 =
          ExitReason.exhausted)
    ∧ (∀ (α : Type) (pp : Nat) (mr : Option Nat) (n page : Nat)
        (acc : List α),
      GitHubCodeSearch.search_loop pp mr (List.replicate n PageResp.rate)
          page acc = (acc, ExitReason.exhausted)) :=
  ⟨fun α limit t off acc => bolt_loop_reasons limit t off acc,
   fun α pp t page acc => jules_loop_reasons pp t page acc,
   fun α pp mr t page acc => search_loop_reasons pp mr t page acc,
   fun α pp mr n page acc => search_loop_rate_exhausts pp mr n page acc⟩

theorem upsert_col_id {r : AppRow} {a : AppData} {now : Nat} (q : AppRow) :
    (if q.id == r.id then
      { q with name := a.name, url := a.url, description := a.description,
               updated_at := now }
     else q).id = q.id := by
  by_cases h : (q.id == r.id) = true
  · rw [if_pos h]
  · rw [if_neg h]

theorem upsert_col_platform {r : AppRow} {a : AppData} {now : Nat}
    (q : AppRow) :
    (if q.id == r.id then
      { q with name := a.name, url := a.url, description := a.description,
               updated_at := now }
     else q).platform_id = q.platform_id := by
  by_cases h : (q.id == r.id) = true
  · rw [if_pos h]
  · rw [if_neg h]

theorem upsert_col_external {r : AppRow} {a : AppData} {now : Nat}
    (q : AppRow) :
    (if q.id == r.id then
      { q with name := a.name, url := a.url, description := a.description,
               updated_at := now }
     else q).external_id = q.external_id := by
  by_cases h : (q.id == r.id) = true
  · rw [if_pos h]
  · rw [if_neg h]

/-- C10: when a row matches `(platform_id, external_id)`, the upsert is a
pure in-place UPDATE frame: it returns the matched row's id, leaves the
AUTOINCREMENT counter, the row count and every row's id / platform_id /
external_id column untouched, places the matched row back with only name,
url, description and updated_at refreshed, keeps every other row unchanged,
and the V0 processor's upsert behaves identically. -/
theorem C10_upsert_frame (db : AppsDB) (a : AppData) (now : Nat) (r : AppRow)
    (hf : db.rows.find? (appKeyMatch a.platform_id a.external_id) = some r) :
    (GitHubDataProcessor.insert_or_update_application db a now).1 = r.id
    ∧ (GitHubDataProcessor.insert_or_update_application db a now).2.nextId =
        db.nextId
    ∧ (GitHubDataProcessor.insert_or_update_application db a now).2.rows.length
        = db.rows.length
    ∧ (GitHubDataProcessor.insert_or_update_application db a now).2.rows.map
        AppRow.id = db.rows.map AppRow.id
    ∧ (GitHubDataProcessor.insert_or_update_application db a now).2.rows.map
        AppRow.platform_id = db.rows.map AppRow.platform_id
    ∧ (GitHubDataProcessor.insert_or_update_application db a now).2.rows.map
        AppRow.external_id = db.rows.map AppRow.external_id
    ∧ { r with name := a.name, url := a.url,
               description := a.description, updated_at := now } ∈
      (GitHubDataProcessor.insert_or_update_application db a now).2.rows
    ∧ (∀ q ∈ db.rows, q.id ≠ r.id →
        q ∈ (GitHubDataProcessor.insert_or_update_application db a now).2.rows)
    ∧ V0DataProcessor.insert_or_update_application db a now =
        GitHubDataProcessor.insert_or_update_application db a now := by
  refine ⟨?_, ?_, ?_, ?_, ?_, ?_, ?_, ?_, by rw [v0_upsert_eq_github]⟩
  · simp only [GitHubDataProcessor.insert_or_update_application, hf]
  · simp only [GitHubDataProcessor.insert_or_update_application, hf]
  · rw [upsert_rows_some hf, List.length_map]
  · rw [upsert_rows_some hf, List.map_map]
    exact List.map_congr_left fun q _ => upsert_col_id q
  · rw [upsert_rows_some hf, List.map_map]
    exact List.map_congr_left fun q _ => upsert_col_platform q
  · rw [upsert_rows_some hf, List.map_map]
    exact List.map_congr_left fun q _ => upsert_col_external q
  · rw [upsert_rows_some hf]
    have h2 := List.mem_map_of_mem
      (fun q => if q.id == r.id then
        { q with name := a.name, url := a.url,
                 description := a.description, updated_at := now }
       else q)
      (List.mem_of_find?_eq_some hf)
    simpa using h2
  · intro q hq hne
    rw [upsert_rows_some hf]
    refine List.mem_map.mpr ⟨q, hq, ?_⟩
    show (if (q.id == r.id) = true then
        { q with name := a.name, url := a.url,
                 description := a.description, updated_at := now }
      else q) = q
    rw [if_neg (by simp [hne])]

/-- Witness for C10 at the concrete one-row table with matching key
`(1, "7")`. -/
theorem C10_upsert_frame_witness :
    (GitHubDataProcessor.insert_or_update_application cexAppsDB
        ⟨1, "7", "new", "newurl", "newdesc"⟩ 5).1 = 1
    ∧ (GitHubDataProcessor.insert_or_update_application cexAppsDB
        ⟨1, "7", "new", "newurl", "newdesc"⟩ 5).2.nextId = cexAppsDB.nextId
    ∧ (GitHubDataProcessor.insert_or_update_application cexAppsDB
        ⟨1, "7", "new", "newurl", "newdesc"⟩ 5).2.rows.length
        = cexAppsDB.rows.length
    ∧ (GitHubDataProcessor.insert_or_update_application cexAppsDB
        ⟨1, "7", "new", "newurl", "newdesc"⟩ 5).2.rows.map AppRow.id
        = cexAppsDB.rows.map AppRow.id
    ∧ (GitHubDataProcessor.insert_or_update_application cexAppsDB
        ⟨1, "7", "new", "newurl", "newdesc"⟩ 5).2.rows.map AppRow.platform_id
        = cexAppsDB.rows.map AppRow.platform_id
    ∧ (GitHubDataProcessor.insert_or_update_application cexAppsDB
        ⟨1, "7", "new", "newurl", "newdesc"⟩ 5).2.rows.map AppRow.external_id
        = cexAppsDB.rows.map AppRow.external_id
    ∧ ({ id := 1, platform_id := 1, external_id := "7", name := "new",
         url := "newurl", description := "newdesc", updated_at := 5 } :
        AppRow) ∈
      (GitHubDataProcessor.insert_or_update_application cexAppsDB
        ⟨1, "7", "new", "newurl", "newdesc"⟩ 5).2.rows
    ∧ (∀ q ∈ cexAppsDB.rows, q.id ≠ 1 →
        q ∈ (GitHubDataProcessor.insert_or_update_application cexAppsDB
          ⟨1, "7", "new", "newurl", "newdesc"⟩ 5).2.rows)
    ∧ V0DataProcessor.insert_or_update_application cexAppsDB
        ⟨1, "7", "new", "newurl", "newdesc"⟩ 5 =
      GitHubDataProcessor.insert_or_update_application cexAppsDB
        ⟨1, "7", "new", "newurl", "newdesc"⟩ 5 :=
  C10_upsert_frame cexAppsDB ⟨1, "7", "new", "newurl", "newdesc"⟩ 5
    { id := 1, platform_id := 1, external_id := "7", name := "old",
      url := "oldurl", description := "olddesc", updated_at := 0 }
    (by decide)

end VibeDB
